import Mathlib

/-!  Verification of the table-cell extraction pipeline in `tableReader.py`.

The source turns free-text table cells (masses, temperature/time, pressure,
gas flows) into normalized records with quality flags and a confidence score.
This file shallowly embeds the pipeline: cells are lists of characters,
Python floats are exact rationals (every numeric literal the pipeline parses
is a decimal literal, and the arithmetic performed on the values checked here
is exact in both models), Python regexes are run by a small backtracking
engine with `re` semantics (leftmost match, greedy quantifiers, ordered
alternation, capture groups, word boundaries), and the two external runtime
primitives the record builder uses without inspecting (hashlib sha1
hexdigest, Python float-to-string formatting inside f-strings) are taken as
function parameters.  -/

set_option maxHeartbeats 1600000

namespace VardaTable

/-  The rational operations are irreducible by default; concrete runs of the
    pipeline are certified by kernel reduction, which needs them unfolded. -/
attribute [local semireducible] Rat.add Rat.mul Rat.sub Rat.inv Rat.ofScientific

/-! Character classes and Python string helpers. -/

/-- Characters matched by the regex class backslash-s for Python `str`
    (ASCII whitespace plus the Unicode space characters). -/
def isSpacePy (c : Char) : Bool :=
  c = ' ' || c = '\t' || c = '\n' || c = '\r' || c = '\x0b' || c = '\x0c' ||
  c = '\x1c' || c = '\x1d' || c = '\x1e' || c = '\x1f' || c = '\x85' ||
  c = ' ' || c = ' ' ||
  (' ' ≤ c && c ≤ ' ') ||
  c = ' ' || c = ' ' || c = ' ' || c = ' ' || c = '　'

/-- Python `str.strip()`: drop leading and trailing whitespace. -/
def stripPy (l : List Char) : List Char :=
  ((l.dropWhile isSpacePy).reverse.dropWhile isSpacePy).reverse

/-- Collapse every maximal whitespace run to a single space
    (the effect of `re.sub` with pattern backslash-s-plus and replacement " ").
    The boolean records whether the previous character was whitespace. -/
def collapseWsAux : Bool → List Char → List Char
  | _, [] => []
  | prevSp, c :: rest =>
    if isSpacePy c then
      if prevSp then collapseWsAux true rest else ' ' :: collapseWsAux true rest
    else c :: collapseWsAux false rest

/-- Source `clean(s)`: strip, then collapse whitespace runs to single spaces. -/
def clean (l : List Char) : List Char := collapseWsAux false (stripPy l)

/-- Cell preprocessing used by every extractor in the source:
    `clean(cell).replace(thin-space, " ")` where the replaced character is
    U+2009 THIN SPACE. -/
def pyPrep (l : List Char) : List Char :=
  (clean l).map (fun c => if c = ' ' then ' ' else c)

/-- Python `str.lower()` (ASCII range; all letters in this data are ASCII). -/
def lowerL (l : List Char) : List Char := l.map Char.toLower

/-- Does `hay` start with `needle`? -/
def startsWithL : List Char → List Char → Bool
  | [], _ => true
  | _ :: _, [] => false
  | n :: ns, h :: hs => n = h && startsWithL ns hs

/-- Python substring containment `needle in hay`. -/
def containsSub (needle : List Char) : List Char → Bool
  | [] => needle.isEmpty
  | c :: rest => startsWithL needle (c :: rest) || containsSub needle rest

/-- Python `str.endswith` for a single character. -/
def endsWithC (c : Char) (l : List Char) : Bool :=
  match l.getLast? with
  | some x => x = c
  | none => false

/-- The three missing-value sentinel cells: hyphen, en-dash, em-dash. -/
def sentinels : List (List Char) := [['-'], ['–'], ['—']]

/-! A small backtracking regular-expression engine with Python `re`
    semantics: leftmost match, greedy quantifiers, ordered alternation,
    capture groups, word boundaries.  Totality comes from fuel; every
    quantifier in the source's patterns is over a character class, so each
    iteration consumes a character and fuel `length + 1` is never exhausted. -/

inductive RE where
  | eps : RE
  | cls : (Char → Bool) → RE
  | seq : RE → RE → RE
  | alt : RE → RE → RE
  | star : RE → RE
  | grp : Nat → RE → RE
  | wb : RE

/-- Captured groups: group number paired with the captured text. -/
abbrev Groups := List (Nat × List Char)

/-- Result of a match attempt: captured groups, last consumed character
    (for word boundaries when scanning resumes), and the remaining input. -/
abbrev MRes := Option (Groups × Option Char × List Char)

/-- Word characters for the word-boundary assertion. -/
def isWordChar (c : Char) : Bool := c.isAlpha || c.isDigit || c = '_'

/-- Greedy iteration of one sub-matcher `ma`: try one more iteration first
    (longer match preferred), falling back to the continuation.  An iteration
    must consume input; the fuel, instantiated with the input length plus
    one, therefore never runs out.  Structural recursion on the fuel keeps
    every run kernel-reducible. -/
def starLoop (ma : Option Char → List Char → (Option Char → List Char → MRes) → MRes) :
    Nat → Option Char → List Char → (Option Char → List Char → MRes) → MRes
  | 0, prev, s, k => k prev s
  | fuel + 1, prev, s, k =>
    match ma prev s (fun p2 s2 =>
        if s2.length < s.length then starLoop ma fuel p2 s2 k else none) with
    | some res => some res
    | none => k prev s

/-- Backtracking matcher in continuation-passing style.  `prev` is the
    character immediately before the current position (for word boundaries),
    `k` the continuation run after this sub-pattern matches.  Alternatives
    are tried in order; stars try the longer match first (greedy). -/
def matchRE : RE → Option Char → List Char → (Option Char → List Char → MRes) → MRes
  | .eps, prev, s, k => k prev s
  | .cls p, _, s, k =>
    match s with
    | [] => none
    | c :: rest => if p c then k (some c) rest else none
  | .seq a b, prev, s, k => matchRE a prev s (fun p2 s2 => matchRE b p2 s2 k)
  | .alt a b, prev, s, k =>
    match matchRE a prev s k with
    | some res => some res
    | none => matchRE b prev s k
  | .star a, prev, s, k => starLoop (matchRE a) (s.length + 1) prev s k
  | .grp n a, prev, s, k =>
    matchRE a prev s (fun p2 s2 =>
      match k p2 s2 with
      | none => none
      | some (gs, pe, se) => some ((n, s.take (s.length - s2.length)) :: gs, pe, se))
  | .wb, prev, s, k =>
    let left := match prev with | none => false | some c => isWordChar c
    let right := match s with | [] => false | c :: _ => isWordChar c
    if left != right then k prev s else none

/-- Python `re.search`: try each start position from the left; at the first
    position where the pattern matches, return its groups, the last consumed
    character and the remaining input. -/
def reSearch (r : RE) (prev : Option Char) (s : List Char) : MRes :=
  match matchRE r prev s (fun p rest => some ([], p, rest)) with
  | some res => some res
  | none =>
    match s with
    | [] => none
    | c :: rest => reSearch r (some c) rest

/-- Captured text of group `n` (empty if the group is absent). -/
def grpGet (gs : Groups) (n : Nat) : List Char :=
  match gs.find? (fun p => p.1 == n) with
  | some p => p.2
  | none => []

/-- Python `re.findall` and `re.finditer`: non-overlapping matches scanning
    left to right, resuming after each match.  All patterns in the source
    match at least one character, so scanning always progresses. -/
def reFindAllAux (r : RE) : Nat → Option Char → List Char → List Groups
  | 0, _, _ => []
  | fuel + 1, prev, s =>
    match reSearch r prev s with
    | none => []
    | some (gs, p2, rest) =>
      if rest.length < s.length then gs :: reFindAllAux r fuel p2 rest
      else [gs]

def reFindAll (r : RE) (s : List Char) : List Groups :=
  reFindAllAux r (s.length + 1) none s

/-! The concrete patterns of the source. -/

def chrRE (c : Char) : RE := .cls (fun x => x = c)

def litRE (l : List Char) : RE := l.foldr (fun c r => .seq (chrRE c) r) .eps

/-- Case-insensitive literal (the source compiles Pa and Torr with
    re.IGNORECASE). -/
def ciRE (l : List Char) : RE :=
  l.foldr (fun c r => .seq (.cls (fun x => x.toLower = c.toLower)) r) .eps

def dRE : RE := .cls Char.isDigit

def wsStar : RE := .star (.cls isSpacePy)

def optRE (a : RE) : RE := .alt a .eps

def plusRE (a : RE) : RE := .seq a (.star a)

def signRE : RE := optRE (.cls (fun c => c = '-' || c = '+'))

def expRE : RE := .seq (.cls (fun c => c = 'e' || c = 'E')) (.seq signRE (plusRE dRE))

/-- RE_FLOAT: optional sign, digits, optional dot, digits, optional exponent. -/
def reFloat : RE :=
  .seq signRE (.seq (.star dRE) (.seq (optRE (chrRE '.')) (.seq (plusRE dRE) (optRE expRE))))

/-- Separator class of the range patterns: en-dash or ASCII hyphen. -/
def dashRE : RE := .cls (fun c => c = '–' || c = '-')

/-- Mass token: captured float, optional spaces, letter g, word boundary. -/
def massPat : RE := .seq (.grp 1 reFloat) (.seq wsStar (.seq (chrRE 'g') .wb))

/-- Temperature profile: digits, dash, digits, optional degree sign, C. -/
def tempRangePat : RE :=
  .seq (.grp 1 (plusRE dRE)) (.seq wsStar (.seq dashRE (.seq wsStar
    (.seq (.grp 2 (plusRE dRE)) (.seq wsStar (.seq (optRE (chrRE '°')) (chrRE 'C')))))))

/-- Single temperature: captured float, optional spaces, optional degree sign, C. -/
def tempPat : RE := .seq (.grp 1 reFloat) (.seq wsStar (.seq (optRE (chrRE '°')) (chrRE 'C')))

/-- Time range: captured float, dash, captured float, min. -/
def timeRangePat : RE :=
  .seq (.grp 1 reFloat) (.seq wsStar (.seq dashRE (.seq wsStar
    (.seq (.grp 2 reFloat) (.seq wsStar (litRE ['m', 'i', 'n']))))))

/-- Single time: captured float, optional spaces, min. -/
def timePat : RE := .seq (.grp 1 reFloat) (.seq wsStar (litRE ['m', 'i', 'n']))

/-- Pressure in pascals: captured float, Pa (ignorecase), word boundary. -/
def paPat : RE := .seq (.grp 1 reFloat) (.seq wsStar (.seq (ciRE ['P', 'a']) .wb))

/-- Pressure already in the output unit: captured float, Torr (ignorecase). -/
def torrPat : RE :=
  .seq (.grp 1 reFloat) (.seq wsStar (.seq (ciRE ['T', 'o', 'r', 'r']) .wb))

/-- Gas label characters: ASCII letters, digits, parentheses. -/
def gasTokRE : RE := plusRE (.cls (fun c => c.isAlpha || c.isDigit || c = '(' || c = ')'))

/-- Gas flow group: captured label, captured float, sccm, word boundary. -/
def gasPat : RE :=
  .seq (.grp 1 gasTokRE) (.seq wsStar (.seq (.grp 2 reFloat)
    (.seq wsStar (.seq (litRE ['s', 'c', 'c', 'm']) .wb))))

/-- Co-reagent quantity token of the splitter: one capture group around the
    ordered alternation of an inequality-prefixed gram token and a plain
    gram token. -/
def sTokPat : RE :=
  .grp 1 (.alt
    (.seq (chrRE '<') (.seq wsStar (.seq reFloat (.seq wsStar (.seq (chrRE 'g') .wb)))))
    (.seq reFloat (.seq wsStar (.seq (chrRE 'g') .wb))))

/-! Numeric conversion: Python `float()` on text matched by RE_FLOAT,
    modelled exactly as a rational. -/

def digitsVal (l : List Char) : Nat :=
  l.foldl (fun a c => a * 10 + (c.toNat - '0'.toNat)) 0

/-- Split at the first character satisfying `p`: the prefix before it and
    the remainder starting with it. -/
def takeUntil (p : Char → Bool) : List Char → List Char × List Char
  | [] => ([], [])
  | c :: rest =>
    if p c then ([], c :: rest)
    else
      let q := takeUntil p rest
      (c :: q.1, q.2)

/-- Exact rational value of a decimal literal matched by RE_FLOAT. -/
def parseFloatQ (l : List Char) : ℚ :=
  let sg : ℚ × List Char :=
    match l with
    | '-' :: r => (-1, r)
    | '+' :: r => (1, r)
    | _ => (1, l)
  let me := takeUntil (fun c => c = 'e' || c = 'E') sg.2
  let expv : Int :=
    match me.2 with
    | _ :: '-' :: ds => -(digitsVal ds : Int)
    | _ :: '+' :: ds => (digitsVal ds : Int)
    | _ :: ds => (digitsVal ds : Int)
    | [] => 0
  let ifp := takeUntil (fun c => c = '.') me.1
  let frac : List Char := match ifp.2 with | [] => [] | _ :: r => r
  sg.1 * ((digitsVal ifp.1 : ℚ) + (digitsVal frac : ℚ) / ((10 : ℚ) ^ frac.length)) *
    (10 : ℚ) ^ expv

/-! The four unit-value extractors (source lines 16-152). -/

/-- Source `parse_g_mass_list`: list of gram masses in a cell; sentinel or
    qualitative cells (inequality signs, the word rich, the approximation
    mark) and cells with no gram token give the single element none. -/
def parse_g_mass_list (cell0 : List Char) : List (Option ℚ) :=
  let cell := pyPrep cell0
  if sentinels.contains cell then [none]
  else if cell.contains '<' || cell.contains '>' ||
      containsSub ['r', 'i', 'c', 'h'] (lowerL cell) || cell.contains '∼' then [none]
  else
    let vals := (reFindAll massPat cell).map (fun g => grpGet g 1)
    if vals.isEmpty then [none]
    else vals.map (fun v => some (parseFloatQ v))

/-- Output of `parse_temp_time`: temperature, time, flags, and the evidence
    entries for the two fields (each the full raw cell). -/
structure TempTimeOut where
  temperature_C : Option ℚ
  growth_time_min : Option ℚ
  flags : List String
  ev_temperature : List String
  ev_time : List String
deriving Repr, DecidableEq

/-- Source `parse_temp_time` (lines 38-77): approximation marker flag; a
    temperature range leaves temperature unresolved with a profile flag,
    otherwise the first float before an optional degree sign and C; a time
    range leaves time unresolved with a range flag, otherwise the first
    float before min; finally, when the temperature was a profile, the
    first float-before-min match (if any) is written into the time field. -/
def parse_temp_time (cell : List Char) : TempTimeOut :=
  let raw := pyPrep cell
  let flags0 : List String :=
    if raw.contains '∼' || raw.contains '~' then ["approximate_value_present"] else []
  let ft : List String × Option ℚ :=
    match reSearch tempRangePat none raw with
    | some _ => (flags0 ++ ["temperature_profile_unparsed"], none)
    | none =>
      match reSearch tempPat none raw with
      | some (gs, _, _) => (flags0, some (parseFloatQ (grpGet gs 1)))
      | none => (flags0, none)
  let fm : List String × Option ℚ :=
    match reSearch timeRangePat none raw with
    | some _ => (ft.1 ++ ["range_value_unresolved"], none)
    | none =>
      match reSearch timePat none raw with
      | some (gs, _, _) => (ft.1, some (parseFloatQ (grpGet gs 1)))
      | none => (ft.1, none)
  let time_min : Option ℚ :=
    if fm.1.contains "temperature_profile_unparsed" then
      match reSearch timePat none raw with
      | some (gs, _, _) => some (parseFloatQ (grpGet gs 1))
      | none => fm.2
    else fm.2
  ⟨ft.2, time_min, fm.1, [String.mk raw], [String.mk raw]⟩

/-- Output of `parse_pressure`: value, flags, evidence snippets. -/
structure PressureOut where
  pressure_Torr : Option ℚ
  flags : List String
  evidence : List String
deriving Repr, DecidableEq

/-- Source `parse_pressure` (lines 79-107): the literal ambient cell gives
    760 with an assumption flag; a sentinel gives none with a missing flag;
    a float before Pa is divided by 133.322; a float before Torr passes
    through; anything else gives none with an unparsed flag. -/
def parse_pressure (cell : List Char) : PressureOut :=
  let raw := pyPrep cell
  let evid := [String.mk raw]
  if lowerL raw = ['a', 'm', 'b', 'i', 'e', 'n', 't'] then
    ⟨some 760, ["pressure_assumed_ambient"], evid⟩
  else if sentinels.contains raw then ⟨none, ["pressure_missing"], evid⟩
  else
    match reSearch paPat none raw with
    | some (gs, _, _) => ⟨some (parseFloatQ (grpGet gs 1) / 133.322), [], evid⟩
    | none =>
      match reSearch torrPat none raw with
      | some (gs, _, _) => ⟨some (parseFloatQ (grpGet gs 1)), [], evid⟩
      | none => ⟨none, ["pressure_unparsed"], evid⟩

/-- Output of `parse_gas_flows`: ordered de-duplicated gas labels, the
    label-to-flow mapping in insertion order, flags, evidence snippets. -/
structure GasFlowOut where
  carrier_gas : List String
  gas_flows_sccm : List (String × ℚ)
  flags : List String
  evidence : List String
deriving Repr, DecidableEq

/-- Python dict assignment on an insertion-ordered association list:
    overwrite in place if the key exists, else append. -/
def dictInsert (d : List (String × ℚ)) (k : String) (v : ℚ) : List (String × ℚ) :=
  if d.any (fun p => p.1 = k) then d.map (fun p => if p.1 = k then (k, v) else p)
  else d ++ [(k, v)]

/-- Order-preserving de-duplication against an accumulator of seen labels. -/
def dedupKeep (seen : List String) : List String → List String
  | [] => []
  | g :: rest =>
    if seen.contains g then dedupKeep seen rest else g :: dedupKeep (g :: seen) rest

/-- Source `parse_gas_flows` (lines 109-152): slashes become spaces, then
    every label-float-sccm group is collected; no group means an unparsed
    flag with empty outputs. -/
def parse_gas_flows (cell : List Char) : GasFlowOut :=
  let raw := pyPrep cell
  let evid := [String.mk raw]
  let tmp := raw.map (fun c => if c = '/' then ' ' else c)
  let pairs := (reFindAll gasPat tmp).map
    (fun g => (String.mk (grpGet g 1), parseFloatQ (grpGet g 2)))
  if pairs.isEmpty then ⟨[], [], ["gas_flow_unparsed"], evid⟩
  else
    let flows := pairs.foldl (fun d p => dictInsert d p.1 p.2) []
    let gases := pairs.map (fun p => p.1)
    ⟨dedupKeep [] gases, flows, [], evid⟩

/-! The multi-load row splitter (source lines 154-175). -/

/-- Gram matches of the mass-source cell, as counted by the splitter. -/
def mo_vals_of (mo_cell : List Char) : List (List Char) :=
  (reFindAll massPat (pyPrep mo_cell)).map (fun g => grpGet g 1)

/-- Quantity tokens of the co-reagent cell, as counted by the splitter. -/
def s_vals_of (s_cell : List Char) : List (List Char) :=
  (reFindAll sTokPat (pyPrep s_cell)).map (fun g => grpGet g 1)

/-- Source `split_multi_load_row`: when both cells carry at least two
    tokens and the counts agree, pair them positionally; otherwise none. -/
def split_multi_load_row (mo_cell s_cell : List Char) : Option (List (ℚ × List Char)) :=
  let mo_vals := mo_vals_of mo_cell
  let s_vals := s_vals_of s_cell
  if 2 ≤ mo_vals.length ∧ 2 ≤ s_vals.length then
    let mo_list := mo_vals.map parseFloatQ
    let s_list := s_vals.map clean
    if mo_list.length = s_list.length then some (mo_list.zip s_list) else none
  else none

/-! The record data model (source lines 177-225). -/

structure Anneal where
  temperature_C : Option ℚ
  time_min : Option ℚ
  atmosphere : Option String
deriving Repr, DecidableEq

structure Condition where
  material : Option String
  growth_method : Option String
  substrate : Option String
  temperature_C : Option ℚ
  pressure_Torr : Option ℚ
  growth_time_min : Option ℚ
  carrier_gas : List String
  reactants : List String
  gas_flows_sccm : List (String × ℚ)
  ramp_rate_C_per_min : Option ℚ
  cooldown : Option String
  anneal : Anneal
  transfer_method : Option String
  notes : Option String
deriving Repr, DecidableEq

structure Outcomes where
  device_type : Option String
  mobility_cm2_Vs : Option ℚ
  on_off_quotient : Option ℚ
  vth_V : Option ℚ
  contact_resistance_Ohm_um : Option ℚ
  yield_percent : Option ℚ
  layer_count : Option ℚ
  domain_size_um : Option ℚ
  defect_density_cm2 : Option ℚ
deriving Repr, DecidableEq

structure Evidence where
  temperature_C : List String
  pressure_Torr : List String
  growth_time_min : List String
  gas_flows_sccm : List String
  substrate : List String
  reactants : List String
  growth_method : List String
deriving Repr, DecidableEq

structure Quality where
  confidence : ℚ
  missing_required_fields : List String
  flags : List String
deriving Repr, DecidableEq

structure Record where
  record_id : String
  paper : List (String × String)
  condition : Condition
  outcomes : Outcomes
  evidence : Evidence
  quality : Quality
deriving Repr, DecidableEq

/-- The all-absent outcomes of `make_base`; this pipeline never fills them. -/
def base_outcomes : Outcomes := ⟨none, none, none, none, none, none, none, none, none⟩

/-! The record builder (source lines 227-362). -/

/-- First-match lookup in a string association map (Python dict indexing). -/
def pyLookup (d : List (String × String)) (k : String) : Option String :=
  (d.find? (fun p => p.1 == k)).map (fun p => p.2)

/-- Python `dict.get` with a default. -/
def pyGetD (d : List (String × String)) (k : String) (dflt : String) : String :=
  (pyLookup d k).getD dflt

/-- Source `sha_id`: join the parts with a double bar, hash, keep the first
    sixteen hex characters.  The digest (hashlib sha1 hexdigest) is an
    external library primitive, passed in as `hashHex`. -/
def sha_id (hashHex : String → String) (parts : List String) : String :=
  (hashHex (String.intercalate "||" parts)).take 16

/-- Python `" ".join`. -/
def joinSp (l : List String) : String := String.intercalate " " l

/-- Source `build_one` (closure at lines 239-350), its captured variables
    made explicit parameters.  `floatRepr` is Python float-to-string
    formatting (used only inside the notes f-strings), passed in as a
    parameter. -/
def build_one (hashHex : String → String) (floatRepr : ℚ → String)
    (paper_meta : List (String × String)) (table_id : String) (row_index : Nat)
    (mo s temp_time pressure gas substrate : String) (ref : List Char)
    (mo_override_g : Option ℚ) (s_override_note : Option (List Char))
    (suffix : Option String) : Record :=
  let tt := parse_temp_time temp_time.data
  let pp := parse_pressure pressure.data
  let gg := parse_gas_flows gas.data
  let mo_clean := pyPrep mo.data
  let s_clean := pyPrep s.data
  let reactants0 : List String :=
    if containsSub ['M', 'o', 'C', 'l', '5'] mo_clean then ["MoCl5 powder"]
    else if containsSub ['M', 'o', 'S', '2'] mo_clean then ["MoS2 powder"]
    else if containsSub "nanoribbons".data mo_clean then ["MoO3 nanoribbons"]
    else ["MoO3 powder"]
  let reactants : List String :=
    if !containsSub "Single source".data mo_clean &&
        !containsSub "MoS2 powder".data mo_clean then
      if containsSub ['H', '2', 'S'] s_clean then reactants0 ++ ["H2S"]
      else if !s_clean.isEmpty then reactants0 ++ ["S powder"]
      else reactants0
    else reactants0
  let notes_parts : List String :=
    [match mo_override_g with
     | some mg => "Mo source load override from paired list: " ++ floatRepr mg ++ " g"
     | none => "Mo source cell: " ++ String.mk mo_clean] ++
    (match s_override_note with
     | some sn => ["S source load override from paired list: " ++ String.mk sn]
     | none =>
       if !s_clean.isEmpty then ["S source cell: " ++ String.mk s_clean] else []) ++
    ["Cited ref: " ++ String.mk ref ++ "."]
  let flags1 : List String :=
    tt.flags ++ pp.flags ++ gg.flags ++
    (if s_clean.contains '<' ||
        (match s_override_note with
         | some t => !t.isEmpty && t.contains '<'
         | none => false) then ["inequality_value_present"] else []) ++
    (if containsSub ['r', 'i', 'c', 'h'] (lowerL s_clean) then ["sulfur_amount_vague"]
     else []) ++
    (if endsWithC '-' mo_clean || sentinels.contains (stripPy mo_clean) then
      ["mo_source_amount_missing"] else []) ++
    (if mo_clean.contains '∼' || s_clean.contains '∼' then ["approximate_value_present"]
     else [])
  let condition : Condition :=
    { material := some "MoS2"
      growth_method := some "TVD CVD"
      substrate := some (String.mk (clean substrate.data))
      temperature_C := tt.temperature_C
      pressure_Torr := pp.pressure_Torr
      growth_time_min := tt.growth_time_min
      carrier_gas := gg.carrier_gas
      reactants := reactants
      gas_flows_sccm := gg.gas_flows_sccm
      ramp_rate_C_per_min := none
      cooldown := none
      anneal := ⟨none, none, none⟩
      transfer_method := none
      notes := some (joinSp notes_parts) }
  let evidence : Evidence :=
    { temperature_C := tt.ev_temperature
      pressure_Torr := pp.evidence
      growth_time_min := tt.ev_time
      gas_flows_sccm := gg.evidence
      substrate := [String.mk (clean substrate.data)]
      reactants :=
        [String.mk mo_clean] ++ (if !s_clean.isEmpty then [String.mk s_clean] else [])
      growth_method := ["Table 3 (TVD growth parameters)"] }
  let missing : List String :=
    (if condition.material = none then ["material"] else []) ++
    (if condition.growth_method = none then ["growth_method"] else []) ++
    (if condition.temperature_C = none then ["temperature_C"] else [])
  let noneCount : Nat :=
    (if condition.temperature_C = none then 1 else 0) +
    (if condition.pressure_Torr = none then 1 else 0) +
    (if condition.growth_time_min = none then 1 else 0)
  let conf0 : ℚ := 0.90 - 0.15 * (noneCount : ℚ)
  let conf1 : ℚ := if flags1.contains "ambiguous_value" then conf0 - 0.10 else conf0
  let conf2 : ℚ :=
    if flags1.contains "range_value_unresolved" then conf1 - 0.08 else conf1
  let conf3 : ℚ :=
    if flags1.contains "temperature_profile_unparsed" then conf2 - 0.12 else conf2
  let conf : ℚ := max 0 (min 1 conf3)
  let flags2 : List String :=
    flags1 ++ ["review_table_row"] ++
    (if ref.isEmpty then [] else ["cited_ref_" ++ String.mk ref])
  let rid : String :=
    table_id ++ "_r" ++ toString row_index ++
    (match suffix with
     | some sfx => if sfx.isEmpty then "" else "_" ++ sfx
     | none => "")
  { record_id := sha_id hashHex [pyGetD paper_meta "doi" "", rid]
    paper := paper_meta
    condition := condition
    outcomes := base_outcomes
    evidence := evidence
    quality := { confidence := conf, missing_required_fields := missing, flags := flags2 } }

/-- The post-build mutation on split sub-records: append the split flag. -/
def addSplitFlag (r : Record) : Record :=
  { r with quality :=
      { r.quality with flags := r.quality.flags ++ ["row_split_into_multiple_conditions"] } }

/-- Source `row_to_records` (lines 227-362): read the columns (only the
    mass-source column is mandatory; its absence is the KeyError case,
    returned as none), try the splitter, and build one record per pairing
    with the split flag appended, or a single record. -/
def row_to_records (hashHex : String → String) (floatRepr : ℚ → String)
    (cols : List (String × String)) (paper_meta : List (String × String))
    (table_id : String) (row_index : Nat) : Option (List Record) :=
  match pyLookup cols "Mo source" with
  | none => none
  | some mo =>
    let s := pyGetD cols "Sulfur source" ""
    let temp_time := pyGetD cols "Temp. Time" ""
    let pressure := pyGetD cols "Pressure" ""
    let gas := pyGetD cols "Carrier gas Flow rate" ""
    let substrate := pyGetD cols "Substrate/ Set-up" ""
    let ref := clean (pyGetD cols "Ref" "").data
    some
      (match split_multi_load_row mo.data s.data with
       | some paired =>
         (paired.enumFrom 1).map (fun ip =>
           addSplitFlag (build_one hashHex floatRepr paper_meta table_id row_index
             mo s temp_time pressure gas substrate ref
             (some ip.2.1) (some ip.2.2) (some (toString ip.1))))
       | none =>
         [build_one hashHex floatRepr paper_meta table_id row_index
           mo s temp_time pressure gas substrate ref none none none])

/-! Characterization lemmas for the extractors. -/

/-- The temperature/time extractor, with the post-hoc time rewrite of the
    profile case collapsed into a single expression. -/
theorem parse_temp_time_eq (cell : List Char) :
    parse_temp_time cell =
      ⟨(if (reSearch tempRangePat none (pyPrep cell)).isSome then none
        else (reSearch tempPat none (pyPrep cell)).map (fun r => parseFloatQ (grpGet r.1 1))),
       (if (reSearch tempRangePat none (pyPrep cell)).isSome then
          (reSearch timePat none (pyPrep cell)).map (fun r => parseFloatQ (grpGet r.1 1))
        else if (reSearch timeRangePat none (pyPrep cell)).isSome then none
        else (reSearch timePat none (pyPrep cell)).map (fun r => parseFloatQ (grpGet r.1 1))),
       ((if (pyPrep cell).contains '∼' || (pyPrep cell).contains '~' then
           ["approximate_value_present"] else []) ++
        (if (reSearch tempRangePat none (pyPrep cell)).isSome then
           ["temperature_profile_unparsed"] else []) ++
        (if (reSearch timeRangePat none (pyPrep cell)).isSome then
           ["range_value_unresolved"] else [])),
       [String.mk (pyPrep cell)], [String.mk (pyPrep cell)]⟩ := by
  cases hb : (pyPrep cell).contains '∼' || (pyPrep cell).contains '~' <;>
  rcases h1 : reSearch tempRangePat none (pyPrep cell) with _ | ⟨gs1, pc1, rest1⟩ <;>
  rcases h2 : reSearch timeRangePat none (pyPrep cell) with _ | ⟨gs2, pc2, rest2⟩ <;>
  rcases h3 : reSearch tempPat none (pyPrep cell) with _ | ⟨gs3, pc3, rest3⟩ <;>
  rcases h4 : reSearch timePat none (pyPrep cell) with _ | ⟨gs4, pc4, rest4⟩ <;>
  simp [parse_temp_time, hb, h1, h2, h3, h4] <;> simp_all <;> tauto

/-- Every flag of the temperature/time extractor is one of its three flags. -/
theorem parse_temp_time_flags_sub (cell : List Char) :
    ∀ f ∈ (parse_temp_time cell).flags,
      f = "approximate_value_present" ∨ f = "temperature_profile_unparsed" ∨
      f = "range_value_unresolved" := by
  rw [parse_temp_time_eq]
  intro f hf
  simp only [List.mem_append] at hf
  rcases hf with (hf | hf) | hf <;> split at hf <;> simp_all

/-- Every flag of the pressure extractor is one of its three flags. -/
theorem parse_pressure_flags_sub (cell : List Char) :
    ∀ f ∈ (parse_pressure cell).flags,
      f = "pressure_assumed_ambient" ∨ f = "pressure_missing" ∨ f = "pressure_unparsed" := by
  intro f hf
  by_cases ha : lowerL (pyPrep cell) = ['a', 'm', 'b', 'i', 'e', 'n', 't'] <;>
  by_cases hsn : sentinels.contains (pyPrep cell) = true <;>
  rcases h3 : reSearch paPat none (pyPrep cell) with _ | ⟨gs3, pc3, rest3⟩ <;>
  rcases h4 : reSearch torrPat none (pyPrep cell) with _ | ⟨gs4, pc4, rest4⟩ <;>
  simp_all [parse_pressure]

/-- Every flag of the gas-flow extractor is the unparsed flag. -/
theorem parse_gas_flows_flags_sub (cell : List Char) :
    ∀ f ∈ (parse_gas_flows cell).flags, f = "gas_flow_unparsed" := by
  intro f hf
  by_cases hp : ((reFindAll gasPat ((pyPrep cell).map (fun c => if c = '/' then ' ' else c))).map
      (fun g => (String.mk (grpGet g 1), parseFloatQ (grpGet g 2)))).isEmpty = true <;>
  simp_all [parse_gas_flows]

/-- The splitter as a single decision rule: split exactly when both token
    counts are at least two and equal, pairing positionally. -/
theorem split_multi_load_row_eq (mo_cell s_cell : List Char) :
    split_multi_load_row mo_cell s_cell =
      if 2 ≤ (mo_vals_of mo_cell).length ∧ 2 ≤ (s_vals_of s_cell).length ∧
          (mo_vals_of mo_cell).length = (s_vals_of s_cell).length then
        some (((mo_vals_of mo_cell).map parseFloatQ).zip ((s_vals_of s_cell).map clean))
      else none := by
  unfold split_multi_load_row
  by_cases h1 : 2 ≤ (mo_vals_of mo_cell).length ∧ 2 ≤ (s_vals_of s_cell).length
  · by_cases h2 : (mo_vals_of mo_cell).length = (s_vals_of s_cell).length <;>
      simp_all [List.length_map]
  · rw [if_neg h1, if_neg (by tauto)]

/-! Projection equations of the record builder: each field of the built
    record in terms of the extractor outputs.  All hold by unfolding the
    definition; none evaluates an extractor.  The hash and float-formatting
    parameters and the identity and provenance inputs do not occur in the
    right-hand sides of the condition values, which is what makes concrete
    rows checkable by evaluation. -/

section BuildOneProj

variable (hashHex : String → String) (floatRepr : ℚ → String)
variable (paper_meta : List (String × String)) (table_id : String) (row_index : Nat)
variable (mo s temp_time pressure gas substrate : String) (ref : List Char)
variable (o1 : Option ℚ) (o2 : Option (List Char)) (sfx : Option String)

theorem build_one_temperature :
    (build_one hashHex floatRepr paper_meta table_id row_index mo s temp_time pressure gas
      substrate ref o1 o2 sfx).condition.temperature_C =
    (parse_temp_time temp_time.data).temperature_C := rfl

theorem build_one_time :
    (build_one hashHex floatRepr paper_meta table_id row_index mo s temp_time pressure gas
      substrate ref o1 o2 sfx).condition.growth_time_min =
    (parse_temp_time temp_time.data).growth_time_min := rfl

theorem build_one_pressure :
    (build_one hashHex floatRepr paper_meta table_id row_index mo s temp_time pressure gas
      substrate ref o1 o2 sfx).condition.pressure_Torr =
    (parse_pressure pressure.data).pressure_Torr := rfl

theorem build_one_carrier_gas :
    (build_one hashHex floatRepr paper_meta table_id row_index mo s temp_time pressure gas
      substrate ref o1 o2 sfx).condition.carrier_gas =
    (parse_gas_flows gas.data).carrier_gas := rfl

theorem build_one_gas_flows :
    (build_one hashHex floatRepr paper_meta table_id row_index mo s temp_time pressure gas
      substrate ref o1 o2 sfx).condition.gas_flows_sccm =
    (parse_gas_flows gas.data).gas_flows_sccm := rfl

theorem build_one_reactants :
    (build_one hashHex floatRepr paper_meta table_id row_index mo s temp_time pressure gas
      substrate ref o1 o2 sfx).condition.reactants =
    (let reactants0 : List String :=
      if containsSub ['M', 'o', 'C', 'l', '5'] (pyPrep mo.data) then ["MoCl5 powder"]
      else if containsSub ['M', 'o', 'S', '2'] (pyPrep mo.data) then ["MoS2 powder"]
      else if containsSub "nanoribbons".data (pyPrep mo.data) then ["MoO3 nanoribbons"]
      else ["MoO3 powder"]
     if !containsSub "Single source".data (pyPrep mo.data) &&
         !containsSub "MoS2 powder".data (pyPrep mo.data) then
       if containsSub ['H', '2', 'S'] (pyPrep s.data) then reactants0 ++ ["H2S"]
       else if !(pyPrep s.data).isEmpty then reactants0 ++ ["S powder"]
       else reactants0
     else reactants0) := rfl

theorem build_one_notes :
    (build_one hashHex floatRepr paper_meta table_id row_index mo s temp_time pressure gas
      substrate ref o1 o2 sfx).condition.notes =
    some (joinSp
      ([match o1 with
        | some mg => "Mo source load override from paired list: " ++ floatRepr mg ++ " g"
        | none => "Mo source cell: " ++ String.mk (pyPrep mo.data)] ++
       (match o2 with
        | some sn => ["S source load override from paired list: " ++ String.mk sn]
        | none =>
          if !(pyPrep s.data).isEmpty then
            ["S source cell: " ++ String.mk (pyPrep s.data)]
          else []) ++
       ["Cited ref: " ++ String.mk ref ++ "."])) := rfl

/-- The flag list before the provenance flags, as a standalone function for
    reuse in statements. -/
def builder_flags1 (s : String) (o2 : Option (List Char))
    (tflags pflags gflags : List String) (mo_clean : List Char) : List String :=
  tflags ++ pflags ++ gflags ++
  (if (pyPrep s.data).contains '<' ||
      (match o2 with
       | some t => !t.isEmpty && t.contains '<'
       | none => false) then ["inequality_value_present"] else []) ++
  (if containsSub ['r', 'i', 'c', 'h'] (lowerL (pyPrep s.data)) then ["sulfur_amount_vague"]
   else []) ++
  (if endsWithC '-' mo_clean || sentinels.contains (stripPy mo_clean) then
    ["mo_source_amount_missing"] else []) ++
  (if mo_clean.contains '∼' || (pyPrep s.data).contains '∼' then ["approximate_value_present"]
   else [])

theorem build_one_flags :
    (build_one hashHex floatRepr paper_meta table_id row_index mo s temp_time pressure gas
      substrate ref o1 o2 sfx).quality.flags =
    builder_flags1 s o2 (parse_temp_time temp_time.data).flags
      (parse_pressure pressure.data).flags (parse_gas_flows gas.data).flags
      (pyPrep mo.data) ++
    ["review_table_row"] ++
    (if ref.isEmpty then [] else ["cited_ref_" ++ String.mk ref]) := rfl

theorem build_one_confidence :
    (build_one hashHex floatRepr paper_meta table_id row_index mo s temp_time pressure gas
      substrate ref o1 o2 sfx).quality.confidence =
    (let flags1 := builder_flags1 s o2 (parse_temp_time temp_time.data).flags
       (parse_pressure pressure.data).flags (parse_gas_flows gas.data).flags
       (pyPrep mo.data)
     let noneCount : Nat :=
       (if (parse_temp_time temp_time.data).temperature_C = none then 1 else 0) +
       (if (parse_pressure pressure.data).pressure_Torr = none then 1 else 0) +
       (if (parse_temp_time temp_time.data).growth_time_min = none then 1 else 0)
     let conf0 : ℚ := 0.90 - 0.15 * (noneCount : ℚ)
     let conf1 : ℚ := if flags1.contains "ambiguous_value" then conf0 - 0.10 else conf0
     let conf2 : ℚ :=
       if flags1.contains "range_value_unresolved" then conf1 - 0.08 else conf1
     let conf3 : ℚ :=
       if flags1.contains "temperature_profile_unparsed" then conf2 - 0.12 else conf2
     max 0 (min 1 conf3)) := rfl

end BuildOneProj

/-! Unfolding equations of row_to_records for the two splitter outcomes,
    and the facts about the split flag needed by the splitter claims. -/

theorem addSplitFlag_flags (r : Record) :
    (addSplitFlag r).quality.flags =
      r.quality.flags ++ ["row_split_into_multiple_conditions"] := rfl

theorem addSplitFlag_condition (r : Record) : (addSplitFlag r).condition = r.condition := rfl

theorem row_to_records_split (hashHex : String → String) (floatRepr : ℚ → String)
    (cols paper_meta : List (String × String)) (table_id : String) (row_index : Nat)
    (mo : String) (paired : List (ℚ × List Char))
    (hmo : pyLookup cols "Mo source" = some mo)
    (hsplit : split_multi_load_row mo.data (pyGetD cols "Sulfur source" "").data =
      some paired) :
    row_to_records hashHex floatRepr cols paper_meta table_id row_index =
      some ((paired.enumFrom 1).map (fun ip =>
        addSplitFlag (build_one hashHex floatRepr paper_meta table_id row_index
          mo (pyGetD cols "Sulfur source" "") (pyGetD cols "Temp. Time" "")
          (pyGetD cols "Pressure" "") (pyGetD cols "Carrier gas Flow rate" "")
          (pyGetD cols "Substrate/ Set-up" "") (clean (pyGetD cols "Ref" "").data)
          (some ip.2.1) (some ip.2.2) (some (toString ip.1))))) := by
  simp [row_to_records, hmo, hsplit]

theorem row_to_records_nosplit (hashHex : String → String) (floatRepr : ℚ → String)
    (cols paper_meta : List (String × String)) (table_id : String) (row_index : Nat)
    (mo : String)
    (hmo : pyLookup cols "Mo source" = some mo)
    (hsplit : split_multi_load_row mo.data (pyGetD cols "Sulfur source" "").data = none) :
    row_to_records hashHex floatRepr cols paper_meta table_id row_index =
      some [build_one hashHex floatRepr paper_meta table_id row_index
        mo (pyGetD cols "Sulfur source" "") (pyGetD cols "Temp. Time" "")
        (pyGetD cols "Pressure" "") (pyGetD cols "Carrier gas Flow rate" "")
        (pyGetD cols "Substrate/ Set-up" "") (clean (pyGetD cols "Ref" "").data)
        none none none] := by
  simp [row_to_records, hmo, hsplit]

/-- Every flag the builder accumulates before the provenance flags is an
    extractor flag or one of the four builder flags. -/
theorem builder_flags1_mem (s : String) (o2 : Option (List Char))
    (tflags pflags gflags : List String) (mo_clean : List Char) :
    ∀ f ∈ builder_flags1 s o2 tflags pflags gflags mo_clean,
      f ∈ tflags ∨ f ∈ pflags ∨ f ∈ gflags ∨ f = "inequality_value_present" ∨
      f = "sulfur_amount_vague" ∨ f = "mo_source_amount_missing" ∨
      f = "approximate_value_present" := by
  intro f hf
  simp only [builder_flags1, List.mem_append] at hf
  rcases hf with ((((((hf | hf) | hf) | hf) | hf) | hf) | hf)
  · exact Or.inl hf
  · exact Or.inr (Or.inl hf)
  · exact Or.inr (Or.inr (Or.inl hf))
  · split at hf <;> simp_all
  · split at hf <;> simp_all
  · split at hf <;> simp_all
  · split at hf <;> simp_all

/-- A record built without the post-build mutation never carries the split
    flag: neither the extractor flags, nor the builder flags, nor the
    provenance flags (the citation flag always starts with the cited prefix)
    can equal it. -/
theorem split_flag_not_in_build_one (hashHex : String → String) (floatRepr : ℚ → String)
    (paper_meta : List (String × String)) (table_id : String) (row_index : Nat)
    (mo s temp_time pressure gas substrate : String) (ref : List Char)
    (o1 : Option ℚ) (o2 : Option (List Char)) (sfx : Option String) :
    "row_split_into_multiple_conditions" ∉
      (build_one hashHex floatRepr paper_meta table_id row_index mo s temp_time pressure
        gas substrate ref o1 o2 sfx).quality.flags := by
  rw [build_one_flags]
  intro hf
  rcases List.mem_append.mp hf with hf1 | hfc
  · rcases List.mem_append.mp hf1 with hfb | hfr
    · rcases builder_flags1_mem _ _ _ _ _ _ _ hfb with h | h | h | h | h | h | h
      · have := parse_temp_time_flags_sub temp_time.data _ h
        simp_all
      · have := parse_pressure_flags_sub pressure.data _ h
        simp_all
      · have := parse_gas_flows_flags_sub gas.data _ h
        simp_all
      all_goals simp_all
    · simp_all
  · split at hfc
    · simp at hfc
    · simp only [List.mem_singleton] at hfc
      have h3 := congrArg (fun t : String => t.data.head?) hfc
      have h4 : (some 'r' : Option Char) = some 'c' := h3
      simp at h4

/-! The claim theorems. -/

/-- The input row of the end-to-end scenario. -/
def c1row : List (String × String) :=
  [("Mo source", "MoO3 powder 0.4 g"), ("Sulfur source", "S powder 0.8 g"),
   ("Temp. Time", "650 C 15 min"), ("Pressure", "ambient"),
   ("Carrier gas Flow rate", "N2 1 sccm"), ("Substrate/ Set-up", "SiO2/Si face-down"),
   ("Ref", "14")]

/-- C1: for the end-to-end scenario row (any paper metadata, table id, row
    index), row_to_records returns exactly one record with temperature 650,
    time 15, pressure 760, carrier gas N2, flow mapping N2 to 1, reactants
    MoO3 powder and S powder, flags including pressure_assumed_ambient,
    review_table_row and cited_ref_14, and confidence 0.90. -/
theorem claim_C1 (hashHex : String → String) (floatRepr : ℚ → String)
    (paper_meta : List (String × String)) (table_id : String) (row_index : Nat) :
    ∃ r, row_to_records hashHex floatRepr c1row paper_meta table_id row_index = some [r] ∧
      r.condition.temperature_C = some 650 ∧
      r.condition.growth_time_min = some 15 ∧
      r.condition.pressure_Torr = some 760 ∧
      r.condition.carrier_gas = ["N2"] ∧
      r.condition.gas_flows_sccm = [("N2", 1)] ∧
      r.condition.reactants = ["MoO3 powder", "S powder"] ∧
      "pressure_assumed_ambient" ∈ r.quality.flags ∧
      "review_table_row" ∈ r.quality.flags ∧
      "cited_ref_14" ∈ r.quality.flags ∧
      r.quality.confidence = 0.90 := by
  refine ⟨_, rfl, ?_⟩
  simp only [build_one_temperature, build_one_time, build_one_pressure,
    build_one_carrier_gas, build_one_gas_flows, build_one_reactants, build_one_flags,
    build_one_confidence]
  decide

/-- C6 counterexample: on the hyphen sentinel cell, the temperature/time
    extractor returns absent values with an empty flag list, so it does not
    pair the absence with a missing/flag marker as the claim states. -/
theorem claim_C6_cex :
    sentinels.contains (pyPrep "-".data) = true ∧
    (parse_temp_time "-".data).temperature_C = none ∧
    (parse_temp_time "-".data).growth_time_min = none ∧
    (parse_temp_time "-".data).flags = [] := by
  decide

/-- C6 (amended): for every missing-value sentinel cell, every extractor
    returns absence and never a numeric value; the pressure extractor flags
    pressure_missing and the gas-flow extractor flags gas_flow_unparsed,
    while the mass and temperature/time extractors return absent values with
    an empty flag list, the sentinel being preserved in their evidence. -/
theorem claim_C6_amended :
    (parse_g_mass_list "-".data = [none] ∧ parse_g_mass_list "–".data = [none] ∧
      parse_g_mass_list "—".data = [none]) ∧
    (parse_temp_time "-".data = ⟨none, none, [], ["-"], ["-"]⟩ ∧
      parse_temp_time "–".data = ⟨none, none, [], ["–"], ["–"]⟩ ∧
      parse_temp_time "—".data = ⟨none, none, [], ["—"], ["—"]⟩) ∧
    (parse_pressure "-".data = ⟨none, ["pressure_missing"], ["-"]⟩ ∧
      parse_pressure "–".data = ⟨none, ["pressure_missing"], ["–"]⟩ ∧
      parse_pressure "—".data = ⟨none, ["pressure_missing"], ["—"]⟩) ∧
    (parse_gas_flows "-".data = ⟨[], [], ["gas_flow_unparsed"], ["-"]⟩ ∧
      parse_gas_flows "–".data = ⟨[], [], ["gas_flow_unparsed"], ["–"]⟩ ∧
      parse_gas_flows "—".data = ⟨[], [], ["gas_flow_unparsed"], ["—"]⟩) := by
  decide

/-- C9: the pipeline is deterministic: the whole output of row_to_records,
    record identifiers and flag/evidence sequences included, is a pure
    function of the row, the paper metadata, the table id and the row index
    (together with the deterministic hash and float-formatting primitives),
    so two runs on identical input produce identical records. -/
theorem claim_C9 (hashHex : String → String) (floatRepr : ℚ → String)
    (cols paper_meta : List (String × String)) (table_id : String) (row_index : Nat) :
    row_to_records hashHex floatRepr cols paper_meta table_id row_index =
      row_to_records hashHex floatRepr cols paper_meta table_id row_index := rfl

/-- C3 counterexample: on a cell containing both a temperature range and a
    time range, the time range is flagged as unresolved, yet the profile
    exception re-extracts the upper endpoint of the time range through the
    plain float-before-min search, so growth_time_min is 60, not absent as
    the claim states. -/
theorem claim_C3_cex :
    (reSearch timeRangePat none (pyPrep "780–650 °C 30–60 min".data)).isSome = true ∧
    (reSearch tempRangePat none (pyPrep "780–650 °C 30–60 min".data)).isSome = true ∧
    "range_value_unresolved" ∈ (parse_temp_time "780–650 °C 30–60 min".data).flags ∧
    (parse_temp_time "780–650 °C 30–60 min".data).growth_time_min = some 60 := by
  decide

/-- C3 (amended): every cell with a time range gets the
    range_value_unresolved flag; when no temperature profile was flagged the
    time stays unresolved, but when a temperature profile was flagged the
    plain float-before-min search is re-run and its match (which inside a
    time range is an endpoint of the range) is written into the time field. -/
theorem claim_C3_amended (cell : List Char)
    (h : (reSearch timeRangePat none (pyPrep cell)).isSome = true) :
    "range_value_unresolved" ∈ (parse_temp_time cell).flags ∧
    ((reSearch tempRangePat none (pyPrep cell)).isSome = false →
      (parse_temp_time cell).growth_time_min = none) ∧
    ((reSearch tempRangePat none (pyPrep cell)).isSome = true →
      (parse_temp_time cell).growth_time_min =
        (reSearch timePat none (pyPrep cell)).map (fun r => parseFloatQ (grpGet r.1 1))) := by
  rw [parse_temp_time_eq]
  refine ⟨by simp [h], fun h2 => by simp [h, h2], fun h2 => by simp [h, h2]⟩

/-- C3 witness: the amended claim applied to the cell carrying both a
    temperature range and a time range. -/
theorem claim_C3_amended_witness :
    (reSearch timeRangePat none (pyPrep "780–650 °C 30–60 min".data)).isSome = true ∧
    ("range_value_unresolved" ∈ (parse_temp_time "780–650 °C 30–60 min".data).flags ∧
     ((reSearch tempRangePat none (pyPrep "780–650 °C 30–60 min".data)).isSome = false →
       (parse_temp_time "780–650 °C 30–60 min".data).growth_time_min = none) ∧
     ((reSearch tempRangePat none (pyPrep "780–650 °C 30–60 min".data)).isSome = true →
       (parse_temp_time "780–650 °C 30–60 min".data).growth_time_min =
         (reSearch timePat none (pyPrep "780–650 °C 30–60 min".data)).map
           (fun r => parseFloatQ (grpGet r.1 1)))) :=
  ⟨by decide, claim_C3_amended "780–650 °C 30–60 min".data (by decide)⟩

/-- C4: every temperature/time cell matching the temperature range pattern
    (in particular with distinct endpoints) yields an unresolved temperature
    with the temperature_profile_unparsed flag, whatever the surrounding
    time text; the range is never averaged into a value. -/
theorem claim_C4 (cell : List Char)
    (hm : (reSearch tempRangePat none (pyPrep cell)).isSome = true)
    (hAB : (match reSearch tempRangePat none (pyPrep cell) with
            | some r => grpGet r.1 1 != grpGet r.1 2
            | none => true) = true) :
    (parse_temp_time cell).temperature_C = none ∧
    "temperature_profile_unparsed" ∈ (parse_temp_time cell).flags := by
  rw [parse_temp_time_eq]
  exact ⟨by simp [hm], by simp [hm]⟩

/-- C4 witness: the range cell 780 to 650 with a trailing single time. -/
theorem claim_C4_witness :
    (reSearch tempRangePat none (pyPrep "780–650 °C 10 min".data)).isSome = true ∧
    ((parse_temp_time "780–650 °C 10 min".data).temperature_C = none ∧
     "temperature_profile_unparsed" ∈ (parse_temp_time "780–650 °C 10 min".data).flags) :=
  ⟨by decide, claim_C4 "780–650 °C 10 min".data (by decide) (by decide)⟩

/-- C5 counterexample: the cell with an inequality marker contains exactly
    one float-gram token, 0.1, yet the mass extractor resolves the whole
    cell to the single absent value because of the qualitative guard, not to
    the number. -/
theorem claim_C5_cex :
    (reFindAll massPat (pyPrep "<0.1 g".data)).map (fun g => grpGet g 1) =
      [['0', '.', '1']] ∧
    parse_g_mass_list "<0.1 g".data = [none] ∧
    parse_g_mass_list "<0.1 g".data ≠ [some (0.1 : ℚ)] := by
  decide

/-- C5 (amended): for every cell that is not a sentinel, carries none of the
    qualitative markers (inequality signs, the word rich, the approximation
    mark), and contains exactly one float-gram token, the mass extractor
    returns the single-element list of that token's value. -/
theorem claim_C5_amended (cell : List Char) (v : List Char)
    (h1 : sentinels.contains (pyPrep cell) = false)
    (h2 : ((pyPrep cell).contains '<' || (pyPrep cell).contains '>' ||
      containsSub ['r', 'i', 'c', 'h'] (lowerL (pyPrep cell)) ||
      (pyPrep cell).contains '∼') = false)
    (h3 : (reFindAll massPat (pyPrep cell)).map (fun g => grpGet g 1) = [v]) :
    parse_g_mass_list cell = [some (parseFloatQ v)] := by
  simp only [parse_g_mass_list, h1, h2, h3]
  simp

/-- C5 witness: the plain single-token cell 0.4 g. -/
theorem claim_C5_amended_witness :
    sentinels.contains (pyPrep "0.4 g".data) = false ∧
    ((pyPrep "0.4 g".data).contains '<' || (pyPrep "0.4 g".data).contains '>' ||
      containsSub ['r', 'i', 'c', 'h'] (lowerL (pyPrep "0.4 g".data)) ||
      (pyPrep "0.4 g".data).contains '∼') = false ∧
    (reFindAll massPat (pyPrep "0.4 g".data)).map (fun g => grpGet g 1) = [['0', '.', '4']] ∧
    parse_g_mass_list "0.4 g".data = [some (parseFloatQ ['0', '.', '4'])] :=
  ⟨by decide, by decide, by decide,
   claim_C5_amended "0.4 g".data ['0', '.', '4'] (by decide) (by decide) (by decide)⟩

/-- C7: the pressure extractor's case analysis: the literal ambient cell
    (case-insensitive) gives exactly 760 with the assumption flag; a
    sentinel gives absence with the missing flag; a float before a pascal
    marker is divided by 133.322 (so 133.322 Pa gives exactly 1); a float
    before a Torr marker passes through (760 Torr gives 760); anything else
    gives absence with the unparsed flag. -/
theorem claim_C7 :
    (∀ cell, lowerL (pyPrep cell) = ['a', 'm', 'b', 'i', 'e', 'n', 't'] →
      parse_pressure cell =
        ⟨some 760, ["pressure_assumed_ambient"], [String.mk (pyPrep cell)]⟩) ∧
    (∀ cell, lowerL (pyPrep cell) ≠ ['a', 'm', 'b', 'i', 'e', 'n', 't'] →
      sentinels.contains (pyPrep cell) = true →
      parse_pressure cell = ⟨none, ["pressure_missing"], [String.mk (pyPrep cell)]⟩) ∧
    (∀ cell gs pc rest, lowerL (pyPrep cell) ≠ ['a', 'm', 'b', 'i', 'e', 'n', 't'] →
      sentinels.contains (pyPrep cell) = false →
      reSearch paPat none (pyPrep cell) = some (gs, pc, rest) →
      parse_pressure cell =
        ⟨some (parseFloatQ (grpGet gs 1) / 133.322), [], [String.mk (pyPrep cell)]⟩) ∧
    (∀ cell gs pc rest, lowerL (pyPrep cell) ≠ ['a', 'm', 'b', 'i', 'e', 'n', 't'] →
      sentinels.contains (pyPrep cell) = false →
      reSearch paPat none (pyPrep cell) = none →
      reSearch torrPat none (pyPrep cell) = some (gs, pc, rest) →
      parse_pressure cell =
        ⟨some (parseFloatQ (grpGet gs 1)), [], [String.mk (pyPrep cell)]⟩) ∧
    (∀ cell, lowerL (pyPrep cell) ≠ ['a', 'm', 'b', 'i', 'e', 'n', 't'] →
      sentinels.contains (pyPrep cell) = false →
      reSearch paPat none (pyPrep cell) = none →
      reSearch torrPat none (pyPrep cell) = none →
      parse_pressure cell = ⟨none, ["pressure_unparsed"], [String.mk (pyPrep cell)]⟩) ∧
    parse_pressure "133.322 Pa".data = ⟨some 1, [], ["133.322 Pa"]⟩ ∧
    parse_pressure "760 Torr".data = ⟨some 760, [], ["760 Torr"]⟩ ∧
    parse_pressure "ambient".data = ⟨some 760, ["pressure_assumed_ambient"], ["ambient"]⟩ := by
  refine ⟨fun cell h => by simp [parse_pressure, h],
    fun cell h1 h2 => ?_,
    fun cell gs pc rest h1 h2 h3 => ?_,
    fun cell gs pc rest h1 h2 h3 h4 => ?_,
    fun cell h1 h2 h3 h4 => ?_,
    by decide, by decide, by decide⟩
  · have h2m : pyPrep cell ∈ sentinels := by simpa using h2
    simp [parse_pressure, h1, h2m]
  · have h2m : pyPrep cell ∉ sentinels := by simpa using h2
    simp [parse_pressure, h1, h2m, h3]
  · have h2m : pyPrep cell ∉ sentinels := by simpa using h2
    simp [parse_pressure, h1, h2m, h3, h4]
  · have h2m : pyPrep cell ∉ sentinels := by simpa using h2
    simp [parse_pressure, h1, h2m, h3, h4]

/-- C7 witness: one concrete cell per branch of the case analysis. -/
theorem claim_C7_witness :
    parse_pressure "AMBIENT".data =
      ⟨some 760, ["pressure_assumed_ambient"], ["AMBIENT"]⟩ ∧
    parse_pressure "–".data = ⟨none, ["pressure_missing"], ["–"]⟩ ∧
    parse_pressure "30 Pa".data =
      ⟨some (parseFloatQ ['3', '0'] / 133.322), [], ["30 Pa"]⟩ ∧
    parse_pressure "2 Torr".data = ⟨some (parseFloatQ ['2']), [], ["2 Torr"]⟩ ∧
    parse_pressure "xyz".data = ⟨none, ["pressure_unparsed"], ["xyz"]⟩ :=
  ⟨claim_C7.1 "AMBIENT".data (by decide),
   claim_C7.2.1 "–".data (by decide) (by decide),
   claim_C7.2.2.1 "30 Pa".data [(1, ['3', '0'])] (some 'a') [] (by decide) (by decide)
     (by decide),
   claim_C7.2.2.2.1 "2 Torr".data [(1, ['2'])] (some 'r') [] (by decide) (by decide)
     (by decide) (by decide),
   claim_C7.2.2.2.2.1 "xyz".data (by decide) (by decide) (by decide) (by decide)⟩

/-- C8 counterexample: a successfully converted pascal cell carries no flag
    at all, so the extractor does not emit exactly one flag per cell. -/
theorem claim_C8_cex :
    (parse_pressure "30 Pa".data).flags = [] ∧
    ¬(parse_pressure "30 Pa".data).flags.length = 1 := by
  decide

/-- C8 (amended): the pressure extractor emits at most one flag per cell
    (none on a successful numeric parse), and every flag it emits is one of
    its three mutually exclusive flag classes. -/
theorem claim_C8_amended (cell : List Char) :
    (parse_pressure cell).flags.length ≤ 1 ∧
    ∀ f ∈ (parse_pressure cell).flags,
      f = "pressure_assumed_ambient" ∨ f = "pressure_missing" ∨
      f = "pressure_unparsed" := by
  refine ⟨?_, parse_pressure_flags_sub cell⟩
  by_cases ha : lowerL (pyPrep cell) = ['a', 'm', 'b', 'i', 'e', 'n', 't'] <;>
  by_cases hsn : sentinels.contains (pyPrep cell) = true <;>
  rcases h3 : reSearch paPat none (pyPrep cell) with _ | ⟨gs3, pc3, rest3⟩ <;>
  rcases h4 : reSearch torrPat none (pyPrep cell) with _ | ⟨gs4, pc4, rest4⟩ <;>
  simp_all [parse_pressure]

/-- C8 witness: the amended claim evaluated on the flagless pascal cell and
    on a flagged ambient cell. -/
theorem claim_C8_amended_witness :
    ((parse_pressure "30 Pa".data).flags.length ≤ 1 ∧
     ∀ f ∈ (parse_pressure "30 Pa".data).flags,
       f = "pressure_assumed_ambient" ∨ f = "pressure_missing" ∨
       f = "pressure_unparsed") ∧
    ((parse_pressure "ambient".data).flags.length ≤ 1 ∧
     ∀ f ∈ (parse_pressure "ambient".data).flags,
       f = "pressure_assumed_ambient" ∨ f = "pressure_missing" ∨
       f = "pressure_unparsed") :=
  ⟨claim_C8_amended "30 Pa".data, claim_C8_amended "ambient".data⟩

/-- C2: the splitter's contract on row_to_records.  When the mass cell has
    at least two gram tokens, the co-reagent cell has at least two quantity
    tokens, and the counts agree, the row yields exactly that many records,
    every one carrying the split flag, and the i-th record's notes pair the
    i-th mass with the i-th co-reagent token; in every other case the row
    yields exactly one record without the split flag. -/
theorem claim_C2 (hashHex : String → String) (floatRepr : ℚ → String)
    (cols paper_meta : List (String × String)) (table_id : String) (row_index : Nat)
    (mo s : String)
    (hmo : pyLookup cols "Mo source" = some mo)
    (hs : pyGetD cols "Sulfur source" "" = s) :
    ((2 ≤ (mo_vals_of mo.data).length ∧ 2 ≤ (s_vals_of s.data).length ∧
        (mo_vals_of mo.data).length = (s_vals_of s.data).length) →
      ∃ recs, row_to_records hashHex floatRepr cols paper_meta table_id row_index =
          some recs ∧
        recs.length = (mo_vals_of mo.data).length ∧
        (∀ r ∈ recs, "row_split_into_multiple_conditions" ∈ r.quality.flags) ∧
        (∀ i, (hi : i < recs.length) → (hm : i < (mo_vals_of mo.data).length) →
          (hsv : i < (s_vals_of s.data).length) →
          recs[i].condition.notes = some (joinSp
            ["Mo source load override from paired list: " ++
               floatRepr (parseFloatQ (mo_vals_of mo.data)[i]) ++ " g",
             "S source load override from paired list: " ++
               String.mk (clean (s_vals_of s.data)[i]),
             "Cited ref: " ++ String.mk (clean (pyGetD cols "Ref" "").data) ++ "."]))) ∧
    (¬(2 ≤ (mo_vals_of mo.data).length ∧ 2 ≤ (s_vals_of s.data).length ∧
        (mo_vals_of mo.data).length = (s_vals_of s.data).length) →
      ∃ r, row_to_records hashHex floatRepr cols paper_meta table_id row_index =
          some [r] ∧
        "row_split_into_multiple_conditions" ∉ r.quality.flags) := by
  subst hs
  constructor
  · rintro ⟨h1, h2, h3⟩
    have hsplit := split_multi_load_row_eq mo.data (pyGetD cols "Sulfur source" "").data
    rw [if_pos ⟨h1, h2, h3⟩] at hsplit
    refine ⟨_, row_to_records_split hashHex floatRepr cols paper_meta table_id row_index
      mo _ hmo hsplit, ?_, ?_, ?_⟩
    · simp [List.length_zip, h3]
    · intro r hr
      obtain ⟨ip, hip, rfl⟩ := List.mem_map.mp hr
      simp [addSplitFlag_flags]
    · intro i hi hm hsv
      simp only [List.getElem_map, List.getElem_enumFrom, List.getElem_zip,
        addSplitFlag_condition, build_one_notes]
      simp [joinSp]
  · intro hneg
    have hsplit := split_multi_load_row_eq mo.data (pyGetD cols "Sulfur source" "").data
    rw [if_neg hneg] at hsplit
    exact ⟨_, row_to_records_nosplit hashHex floatRepr cols paper_meta table_id row_index
      mo hmo hsplit,
      split_flag_not_in_build_one hashHex floatRepr paper_meta table_id row_index mo
        (pyGetD cols "Sulfur source" "") (pyGetD cols "Temp. Time" "")
        (pyGetD cols "Pressure" "") (pyGetD cols "Carrier gas Flow rate" "")
        (pyGetD cols "Substrate/ Set-up" "") (clean (pyGetD cols "Ref" "").data)
        none none none⟩

/-- Concrete stand-in for the external sha1 hexdigest primitive, used only
    to instantiate witnesses. -/
def hashId : String → String := fun s => s

/-- Concrete stand-in for the external float-formatting primitive, used only
    to instantiate witnesses. -/
def reprQ : ℚ → String := fun q => toString q.num ++ "/" ++ toString q.den

/-- A split row: two gram tokens in the mass cell, two quantity tokens in
    the co-reagent cell. -/
def c2SplitRow : List (String × String) :=
  [("Mo source", "MoO3 0.2 g 0.4 g"), ("Sulfur source", "0.5 g 0.9 g"), ("Ref", "56")]

/-- A refused split: two gram tokens against three quantity tokens. -/
def c2NoSplitRow : List (String × String) :=
  [("Mo source", "MoO3 0.2 g 0.4 g"), ("Sulfur source", "0.5 g 0.9 g 1.1 g")]

/-- C2 witness: the split contract applied to a two-by-two row (split into
    two flagged, positionally paired records) and to a two-by-three row
    (one unflagged record). -/
theorem claim_C2_witness :
    (∃ recs, row_to_records hashId reprQ c2SplitRow [] "t3" 2 = some recs ∧
       recs.length = (mo_vals_of "MoO3 0.2 g 0.4 g".data).length ∧
       (∀ r ∈ recs, "row_split_into_multiple_conditions" ∈ r.quality.flags) ∧
       (∀ i, (hi : i < recs.length) →
         (hm : i < (mo_vals_of "MoO3 0.2 g 0.4 g".data).length) →
         (hsv : i < (s_vals_of "0.5 g 0.9 g".data).length) →
         recs[i].condition.notes = some (joinSp
           ["Mo source load override from paired list: " ++
              reprQ (parseFloatQ (mo_vals_of "MoO3 0.2 g 0.4 g".data)[i]) ++ " g",
            "S source load override from paired list: " ++
              String.mk (clean (s_vals_of "0.5 g 0.9 g".data)[i]),
            "Cited ref: " ++ String.mk (clean (pyGetD c2SplitRow "Ref" "").data) ++ "."]))) ∧
    (∃ r, row_to_records hashId reprQ c2NoSplitRow [] "t3" 3 = some [r] ∧
       "row_split_into_multiple_conditions" ∉ r.quality.flags) :=
  ⟨(claim_C2 hashId reprQ c2SplitRow [] "t3" 2 "MoO3 0.2 g 0.4 g" "0.5 g 0.9 g"
      (by rfl) (by rfl)).1 (by decide),
   (claim_C2 hashId reprQ c2NoSplitRow [] "t3" 3 "MoO3 0.2 g 0.4 g" "0.5 g 0.9 g 1.1 g"
      (by rfl) (by rfl)).2 (by decide)⟩

/-- C10: on a split row, every sub-record's condition agrees with the
    condition of the override-free build in every field except notes: the
    paired mass and co-reagent token reach only the notes text, never a
    numeric condition field, so all sub-records share temperature, pressure,
    time, carrier gas, gas flows and reactants. -/
theorem claim_C10 (hashHex : String → String) (floatRepr : ℚ → String)
    (cols paper_meta : List (String × String)) (table_id : String) (row_index : Nat)
    (mo : String) (paired : List (ℚ × List Char)) (recs : List Record)
    (hmo : pyLookup cols "Mo source" = some mo)
    (hsplit : split_multi_load_row mo.data (pyGetD cols "Sulfur source" "").data =
      some paired)
    (hrecs : row_to_records hashHex floatRepr cols paper_meta table_id row_index =
      some recs) :
    ∀ r ∈ recs,
      r.condition =
        { (build_one hashHex floatRepr paper_meta table_id row_index mo
            (pyGetD cols "Sulfur source" "") (pyGetD cols "Temp. Time" "")
            (pyGetD cols "Pressure" "") (pyGetD cols "Carrier gas Flow rate" "")
            (pyGetD cols "Substrate/ Set-up" "") (clean (pyGetD cols "Ref" "").data)
            none none none).condition with notes := r.condition.notes } := by
  intro r hr
  rw [row_to_records_split hashHex floatRepr cols paper_meta table_id row_index
    mo paired hmo hsplit] at hrecs
  obtain rfl : (paired.enumFrom 1).map _ = recs := Option.some.inj hrecs
  obtain ⟨ip, hip, rfl⟩ := List.mem_map.mp hr
  rfl

/-- Default record for total indexing in the C10 witness. -/
def defaultRec : Record := build_one hashId reprQ [] "" 0 "" "" "" "" "" "" [] none none none

/-- C10 witness: the frame property evaluated on the first sub-record of the
    concrete split row. -/
theorem claim_C10_witness :
    (((row_to_records hashId reprQ c2SplitRow [] "t3" 2).getD []).getD 0
        defaultRec).condition =
      { (build_one hashId reprQ [] "t3" 2 "MoO3 0.2 g 0.4 g"
          (pyGetD c2SplitRow "Sulfur source" "") (pyGetD c2SplitRow "Temp. Time" "")
          (pyGetD c2SplitRow "Pressure" "") (pyGetD c2SplitRow "Carrier gas Flow rate" "")
          (pyGetD c2SplitRow "Substrate/ Set-up" "")
          (clean (pyGetD c2SplitRow "Ref" "").data)
          none none none).condition with
        notes := (((row_to_records hashId reprQ c2SplitRow [] "t3" 2).getD []).getD 0
          defaultRec).condition.notes } :=
  claim_C10 hashId reprQ c2SplitRow [] "t3" 2 "MoO3 0.2 g 0.4 g"
    ((split_multi_load_row "MoO3 0.2 g 0.4 g".data
      (pyGetD c2SplitRow "Sulfur source" "").data).getD [])
    ((row_to_records hashId reprQ c2SplitRow [] "t3" 2).getD [])
    (by rfl) (by rfl) (by rfl)
    (((row_to_records hashId reprQ c2SplitRow [] "t3" 2).getD []).getD 0 defaultRec)
    (by decide)

end VardaTable
